import Mathlib

/-!
Shallow embedding of the marketplace commerce/entitlement core of the repository:
the transaction controller (`purchaseRule`, `requestRefund`, `processRefund` in
src/controllers/transactionController.js), the review controller (`createReview`,
`updateReview`, `deleteReview`, `markHelpful` in src/controllers/reviewController.js),
the content gate of the rule controller (`getRuleById`, `getRules` in
src/controllers/ruleController.js), and the Mongoose schemas (Rule, User, Purchase,
Transaction, Review in src/models).

Modelling conventions:
* JavaScript `Number` values are modelled as exact rationals (`ℚ`).
* Mongo documents are modelled as Lean structures.  Mongoose runs with the default
  `strict: true`, so a hydrated document exposes exactly the schema paths, and update
  operations (`findByIdAndUpdate`) silently drop paths that are not in the schema.
  The functions `applyRuleSetPath` / `applyUserIncPath` make this path filtering
  explicit: they enumerate the schema's numeric statistic paths and leave the
  document unchanged for any other path.
* `transactionController.purchaseRule` dereferences several paths that do **not**
  exist in the Rule schema (`rule.pricing.type`, `rule.pricing.amount`,
  `rule.creator`, `rule.stats`).  The embedding represents the values those property
  reads produce as explicit `Option`-valued fields of `RuleDoc`
  (`pricingTypeRead`, `pricingAmountRead`, `creatorRead`, `statsRead`); the predicate
  `SchemaConformingRule` states that the document was hydrated through the actual
  Rule schema of src/models/Rule.js, in which case all four reads yield `undefined`
  (`none`).
* Each controller operation returns the resulting persistent state together with
  `Option ApiErr` (`none` = HTTP success).  JavaScript has no transactions/rollback,
  so an operation that throws after a `save()` still returns the partially written
  state.
-/

/-- Error taxonomy of src/middleware/errorHandler.js (`errors.*`), plus the two
JavaScript runtime exceptions the controllers can raise (they surface as HTTP 500
through `asyncHandler`). -/
inductive ApiErr : Type
  | badRequest (msg : String)
  | forbidden (msg : String)
  | notFound (msg : String)
  | conflict (msg : String)
  | validationError (msg : String)
  | jsReferenceError (ident : String)
  | jsTypeError (msg : String)
deriving DecidableEq

/-- The `pricing` subdocument of the Rule schema (src/models/Rule.js lines 152-161):
fields `isPaid`, `price`, `currency`, `licenseType`.  There is no field named `type`
and none named `amount`. -/
structure PricingDoc where
  isPaid : Bool
  price : ℚ
  currency : String
  licenseType : String
deriving DecidableEq

/-- The `statistics` subdocument of the Rule schema (src/models/Rule.js lines
188-195): `views`, `downloads`, `forks`, `purchases`, `rating`, `totalRatings`.
Note there is no `reviewCount` path. -/
structure RuleStatistics where
  views : ℚ
  downloads : ℚ
  forks : ℚ
  purchases : ℚ
  rating : ℚ
  totalRatings : ℚ
deriving DecidableEq

/-- Value of the (non-schema) `rule.stats` object that
`transactionController.purchaseRule` lines 190-191 reads and writes. -/
structure LegacyStats where
  purchases : ℚ
  revenue : ℚ
deriving DecidableEq

/-- A Rule document as the controllers dereference it.  Schema paths (per
src/models/Rule.js) are plain fields; the four non-schema property reads performed
by `purchaseRule` are `Option`-valued (`none` models `undefined`). -/
structure RuleDoc where
  rid : Nat
  title : String
  author : Nat
  ruleQuery : String
  visibility : String
  pricing : PricingDoc
  statistics : RuleStatistics
  isActive : Bool
  pricingTypeRead : Option String
  pricingAmountRead : Option ℚ
  creatorRead : Option Nat
  statsRead : Option LegacyStats
deriving DecidableEq

/-- A document hydrated through the actual Rule schema: Mongoose `strict` mode means
the reads of `pricing.type`, `pricing.amount`, `creator` and `stats` all produce
`undefined`, whatever is stored in the database. -/
def SchemaConformingRule (r : RuleDoc) : Prop :=
  r.pricingTypeRead = none ∧ r.pricingAmountRead = none ∧
    r.creatorRead = none ∧ r.statsRead = none

/-- The `statistics` subdocument of the User schema (src/models/User.js lines
115-120): `totalRules`, `totalDownloads`, `totalEarnings`, `rating`.  There is no
path named `statistics.earnings`. -/
structure UserStatistics where
  totalRules : ℚ
  totalDownloads : ℚ
  totalEarnings : ℚ
  rating : ℚ
deriving DecidableEq

/-- A User document (fields the core reads). -/
structure UserDoc where
  uid : Nat
  role : String
  statistics : UserStatistics
deriving DecidableEq

/-- A Transaction document per src/models/Transaction.js (fields the core reads and
writes; `metadata` is modelled by its two refund-relevant entries). -/
structure TransactionDoc where
  tid : Nat
  buyer : Nat
  seller : Nat
  rule : Nat
  amount : ℚ
  currency : String
  paymentMethod : String
  status : String
  platformFee : ℚ
  sellerEarnings : ℚ
  refundReason : Option String
  refundRequestedBy : Option Nat
  createdAt : ℚ
deriving DecidableEq

/-- A Purchase document per src/models/Purchase.js (download history elided). -/
structure PurchaseDoc where
  pid : Nat
  user : Nat
  rule : Nat
  transaction : Nat
  licenseKey : String
  isActive : Bool
  downloadsCount : ℚ
deriving DecidableEq

/-- A Review document per src/models/Review.js. -/
structure ReviewDoc where
  revId : Nat
  rule : Nat
  user : Nat
  rating : ℚ
  comment : String
  verified : Bool
  helpfulCount : ℚ
  helpfulUsers : List Nat
  reported : Bool
  isActive : Bool
deriving DecidableEq

/-- A stored notification (src/models/Notification.js; only the fields the claims
mention). -/
structure NotificationDoc where
  recipient : Nat
  ntype : String
  title : String
deriving DecidableEq

/-- The persistent state the core operates on, plus a counter standing in for
MongoDB id / `crypto.randomBytes` generation. -/
structure St where
  rules : List RuleDoc
  users : List UserDoc
  transactions : List TransactionDoc
  purchases : List PurchaseDoc
  reviews : List ReviewDoc
  notifications : List NotificationDoc
  nextId : Nat
deriving DecidableEq

def findRule (s : St) (rid : Nat) : Option RuleDoc :=
  s.rules.find? (fun r => r.rid == rid)

def findUser (s : St) (uid : Nat) : Option UserDoc :=
  s.users.find? (fun u => u.uid == uid)

def findTxn (s : St) (tid : Nat) : Option TransactionDoc :=
  s.transactions.find? (fun t => t.tid == tid)

def findReview (s : St) (revId : Nat) : Option ReviewDoc :=
  s.reviews.find? (fun v => v.revId == revId)

/-- `Purchase.findOne({ user, rule, isActive: true })` as used by the controllers. -/
def findActivePurchase (s : St) (uid rid : Nat) : Option PurchaseDoc :=
  s.purchases.find? (fun p => p.user == uid && p.rule == rid && p.isActive)

/-- Replace the stored rule document with the given save()d one (keyed by `_id`). -/
def saveRule (s : St) (r : RuleDoc) : St :=
  { s with rules := s.rules.map (fun x => if x.rid == r.rid then r else x) }

def saveTxn (s : St) (t : TransactionDoc) : St :=
  { s with transactions := s.transactions.map (fun x => if x.tid == t.tid then t else x) }

def saveReview (s : St) (v : ReviewDoc) : St :=
  { s with reviews := s.reviews.map (fun x => if x.revId == v.revId then v else x) }

/-- `Notification.create({...})`. -/
def notify (s : St) (recipient : Nat) (ntype title : String) : St :=
  { s with notifications := s.notifications ++ [⟨recipient, ntype, title⟩] }

/-- `Rule.findByIdAndUpdate(id, { [path]: v })` casting of a single `$set`-style
path: Mongoose strict mode keeps only schema paths; the Rule schema's numeric
statistic paths are the six below.  In particular the review controller's paths
`"stats.rating"` and `"stats.reviewCount"` are not schema paths and are dropped. -/
def applyRuleSetPath (r : RuleDoc) (path : String) (v : ℚ) : RuleDoc :=
  if path = "statistics.views" then { r with statistics := { r.statistics with views := v } }
  else if path = "statistics.downloads" then { r with statistics := { r.statistics with downloads := v } }
  else if path = "statistics.forks" then { r with statistics := { r.statistics with forks := v } }
  else if path = "statistics.purchases" then { r with statistics := { r.statistics with purchases := v } }
  else if path = "statistics.rating" then { r with statistics := { r.statistics with rating := v } }
  else if path = "statistics.totalRatings" then { r with statistics := { r.statistics with totalRatings := v } }
  else r

def updateRuleById (s : St) (rid : Nat) (updates : List (String × ℚ)) : St :=
  { s with rules := s.rules.map (fun r =>
      if r.rid == rid then updates.foldl (fun a kv => applyRuleSetPath a kv.1 kv.2) r else r) }

/-- `User.findByIdAndUpdate(id, { $inc: { [path]: d } })` casting: only User schema
statistic paths survive; `processRefund`'s `"statistics.earnings"` is not one of
them (the schema path is `"statistics.totalEarnings"`), so it is dropped. -/
def applyUserIncPath (u : UserDoc) (path : String) (d : ℚ) : UserDoc :=
  if path = "statistics.totalRules" then
    { u with statistics := { u.statistics with totalRules := u.statistics.totalRules + d } }
  else if path = "statistics.totalDownloads" then
    { u with statistics := { u.statistics with totalDownloads := u.statistics.totalDownloads + d } }
  else if path = "statistics.totalEarnings" then
    { u with statistics := { u.statistics with totalEarnings := u.statistics.totalEarnings + d } }
  else if path = "statistics.rating" then
    { u with statistics := { u.statistics with rating := u.statistics.rating + d } }
  else u

def updateUserByIdInc (s : St) (uid : Nat) (path : String) (d : ℚ) : St :=
  { s with users := s.users.map (fun u => if u.uid == uid then applyUserIncPath u path d else u) }

/-- `Review.find({ rule, isActive: true })` as used by the rating recomputation. -/
def activeReviewsFor (s : St) (rid : Nat) : List ReviewDoc :=
  s.reviews.filter (fun v => v.rule == rid && v.isActive)

/-- `allReviews.reduce((sum, r) => sum + r.rating, 0) / allReviews.length`. -/
def reviewsAvg (l : List ReviewDoc) : ℚ :=
  (l.map (fun v => v.rating)).sum / (l.length : ℚ)

/-- Embedding of `transactionController.purchaseRule` (src/unnamed/part_002 lines
123-233).  Checks in source order: rule exists; `rule.pricing.type === "PAID"`
(a read of a path the Rule schema does not define); no existing active Purchase;
buyer is not `rule.creator` (another non-schema read: if it is `undefined` the
`.toString()` call raises a TypeError); then saves the COMPLETED Transaction with
`platformFee = amount * 0.1` (no rounding) and `sellerEarnings = amount -
platformFee`, saves the Purchase, updates `rule.stats` (a third non-schema read:
`undefined` raises a TypeError *after* the two saves), and emits the two
notifications.  `rule.pricing.amount` being `undefined` makes `Transaction.save()`
fail its `required` validator for `amount`, before anything is written. -/
def purchaseRule (s : St) (buyerId ruleId : Nat) (now : ℚ) : St × Option ApiErr :=
  match findRule s ruleId with
  | none => (s, some (.notFound "Rule not found"))
  | some rule =>
    if rule.pricingTypeRead = some "PAID" then
      match findActivePurchase s buyerId ruleId with
      | some _ => (s, some (.conflict "You have already purchased this rule"))
      | none =>
        match rule.creatorRead with
        | none => (s, some (.jsTypeError "rule.creator is undefined"))
        | some creator =>
          if creator = buyerId then (s, some (.badRequest "You cannot purchase your own rule"))
          else
            match rule.pricingAmountRead with
            | none => (s, some (.validationError "Transaction validation failed: amount is required"))
            | some amount =>
              let platformFee := amount * (1 / 10)
              let sellerEarnings := amount - platformFee
              let t : TransactionDoc :=
                { tid := s.nextId, buyer := buyerId, seller := creator, rule := ruleId,
                  amount := amount, currency := "USD", paymentMethod := "STRIPE",
                  status := "COMPLETED", platformFee := platformFee,
                  sellerEarnings := sellerEarnings, refundReason := none,
                  refundRequestedBy := none, createdAt := now }
              let s1 : St := { s with transactions := s.transactions ++ [t], nextId := s.nextId + 1 }
              let p : PurchaseDoc :=
                { pid := s1.nextId, user := buyerId, rule := ruleId, transaction := t.tid,
                  licenseKey := "LIC" ++ toString s1.nextId, isActive := true,
                  downloadsCount := 0 }
              let s2 : St := { s1 with purchases := s1.purchases ++ [p], nextId := s1.nextId + 1 }
              match rule.statsRead with
              | none => (s2, some (.jsTypeError "rule.stats is undefined"))
              | some st =>
                let rule2 := { rule with statsRead := some ⟨st.purchases + 1, st.revenue + amount⟩ }
                let s3 := saveRule s2 rule2
                let s4 := notify s3 creator "RULE_PURCHASED" "Your rule was purchased"
                let s5 := notify s4 buyerId "RULE_PURCHASED" "Purchase successful"
                (s5, none)
    else (s, some (.badRequest "This rule is not for sale"))

/-- Embedding of `transactionController.requestRefund` (src/unnamed/part_002 lines
238-293).  The `reason` body field is falsy when absent or the empty string. -/
def requestRefund (s : St) (tid requesterId : Nat) (reason : Option String) (now : ℚ) :
    St × Option ApiErr :=
  if reason = none ∨ reason = some "" then (s, some (.badRequest "Refund reason is required"))
  else
    match findTxn s tid with
    | none => (s, some (.notFound "Transaction not found"))
    | some t =>
      if t.buyer ≠ requesterId then (s, some (.forbidden "Only the buyer can request a refund"))
      else if t.status ≠ "COMPLETED" then
        (s, some (.badRequest "Refund can only be requested for completed transactions"))
      else if (now - t.createdAt) / 86400000 > 30 then
        (s, some (.badRequest "Refund requests can only be made within 30 days"))
      else
        let t2 := { t with status := "DISPUTED", refundReason := reason,
                           refundRequestedBy := some requesterId }
        let s1 := saveTxn s t2
        (notify s1 t.buyer "SYSTEM" "Refund request submitted", none)

/-- Embedding of `transactionController.processRefund` (src/unnamed/part_002 lines
298-359).  On approval it sets the status to REFUNDED and issues
`User.findByIdAndUpdate(seller, { $inc: { "statistics.earnings": -sellerEarnings } })`
— a path the User schema does not define, so strict-mode casting drops it
(see `applyUserIncPath`).  On denial the status returns to COMPLETED. -/
def processRefund (s : St) (tid : Nat) (approved : Bool) : St × Option ApiErr :=
  match findTxn s tid with
  | none => (s, some (.notFound "Transaction not found"))
  | some t =>
    if t.status ≠ "DISPUTED" then
      (s, some (.badRequest "Only disputed transactions can be refunded"))
    else if approved then
      let t2 := { t with status := "REFUNDED" }
      let s1 := updateUserByIdInc s t.seller "statistics.earnings" (-t.sellerEarnings)
      let s2 := notify s1 t.buyer "SYSTEM" "Refund approved"
      let s3 := notify s2 t.seller "SYSTEM" "Refund issued"
      (saveTxn s3 t2, none)
    else
      let t2 := { t with status := "COMPLETED" }
      (saveTxn (notify s t.buyer "SYSTEM" "Refund denied") t2, none)

/-- Tail of `reviewController.createReview` after the purchase gate: the duplicate
lookup `Review.findOne({ rule, user })` (lines 111-114) has **no** `isActive`
filter; if it finds nothing the controller evaluates
`new Review({ ..., verified: !!hasPurchased })` (line 126), but `hasPurchased` is
a `const` block-scoped inside the paid-rule branch (lines 96-108), so the
identifier is out of scope and the evaluation raises
`ReferenceError: hasPurchased is not defined` before `review.save()`.  Everything
after line 121 of the source (saving the review, the activity log, the rating
recomputation of lines 144-152) is therefore unreachable and not modelled. -/
def createReviewAfterGate (s : St) (userId ruleId : Nat) : St × Option ApiErr :=
  match s.reviews.find? (fun v => v.rule == ruleId && v.user == userId) with
  | some _ => (s, some (.conflict "You have already reviewed this rule"))
  | none => (s, some (.jsReferenceError "hasPurchased"))

/-- Embedding of `reviewController.createReview` (src/unnamed/part_004 lines
86-161).  The paid-rule purchase gate tests `rule.pricing.type === "PAID"`, a read
of a path the Rule schema does not define. -/
def createReview (s : St) (userId ruleId : Nat) (rating : ℚ) (comment : String) :
    St × Option ApiErr :=
  match findRule s ruleId with
  | none => (s, some (.notFound "Rule not found"))
  | some rule =>
    if rule.pricingTypeRead = some "PAID" then
      match findActivePurchase s userId ruleId with
      | none => (s, some (.forbidden "You must purchase this rule to leave a review"))
      | some _ => createReviewAfterGate s userId ruleId
    else createReviewAfterGate s userId ruleId

/-- Embedding of `reviewController.updateReview` (src/unnamed/part_004 lines
166-206).  `review.rating = rating || review.rating` keeps the old value for the
falsy inputs `undefined` and `0`; `review.save()` re-runs the schema validators
(`rating` min 1 / max 5, `comment` maxlength 1000); the subsequent
`Rule.findByIdAndUpdate(r, { "stats.rating": avg })` writes a non-schema path,
which strict-mode casting drops. -/
def updateReview (s : St) (userId reviewId : Nat) (ratingInput : Option ℚ)
    (commentInput : Option String) : St × Option ApiErr :=
  match findReview s reviewId with
  | none => (s, some (.notFound "Review not found"))
  | some v =>
    if v.user ≠ userId then (s, some (.forbidden "You can only update your own reviews"))
    else
      let newRating := match ratingInput with
        | some x => if x = 0 then v.rating else x
        | none => v.rating
      let newComment := match commentInput with
        | some c => if c = "" then v.comment else c
        | none => v.comment
      if newRating < 1 ∨ 5 < newRating ∨ 1000 < newComment.length then
        (s, some (.validationError "Review validation failed"))
      else
        let v2 := { v with rating := newRating, comment := newComment }
        let s1 := saveReview s v2
        let avg := reviewsAvg (activeReviewsFor s1 v.rule)
        (updateRuleById s1 v.rule [("stats.rating", avg)], none)

/-- Embedding of `reviewController.deleteReview` (src/unnamed/part_004 lines
211-254): soft-deletes the review, then recomputes the aggregate — but the
`Rule.findByIdAndUpdate` paths `"stats.rating"` / `"stats.reviewCount"` are not
Rule schema paths (those are `"statistics.rating"` / `"statistics.totalRatings"`,
and no review-count path exists at all), so strict-mode casting drops both. -/
def deleteReview (s : St) (userId : Nat) (role : String) (reviewId : Nat) :
    St × Option ApiErr :=
  match findReview s reviewId with
  | none => (s, some (.notFound "Review not found"))
  | some v =>
    if v.user ≠ userId ∧ role ≠ "ADMIN" then
      (s, some (.forbidden "You can only delete your own reviews"))
    else
      let v2 := { v with isActive := false }
      let s1 := saveReview s v2
      let act := activeReviewsFor s1 v.rule
      if 0 < act.length then
        (updateRuleById s1 v.rule
          [("stats.rating", reviewsAvg act), ("stats.reviewCount", (act.length : ℚ))], none)
      else
        (updateRuleById s1 v.rule [("stats.rating", 0), ("stats.reviewCount", 0)], none)

/-- Embedding of `reviewController.markHelpful` (src/unnamed/part_004 lines
259-289).  `helpful.users.indexOf(user) !== -1` is membership; `splice(idx, 1)`
removes the first occurrence.  When neither branch applies the document is saved
unchanged. -/
def markHelpful (s : St) (userId reviewId : Nat) (helpful : Bool) : St × Option ApiErr :=
  match findReview s reviewId with
  | none => (s, some (.notFound "Review not found"))
  | some v =>
    if helpful ∧ userId ∉ v.helpfulUsers then
      (saveReview s { v with helpfulUsers := v.helpfulUsers ++ [userId],
                             helpfulCount := v.helpfulCount + 1 }, none)
    else if ¬ helpful ∧ userId ∈ v.helpfulUsers then
      (saveReview s { v with helpfulUsers := v.helpfulUsers.erase userId,
                             helpfulCount := v.helpfulCount - 1 }, none)
    else (saveReview s v, none)

/-- Fixed marker appended to a truncated paid-rule preview
(src/controllers/ruleController.js lines 158 and 227). -/
def purchaseMarker : String := "... [Purchase to view full content]"

/-- Fixed placeholder returned to anonymous viewers of a paid rule
(src/controllers/ruleController.js lines 161 and 230). -/
def anonPlaceholder : String := "[Login and purchase to view content]"

/-- Embedding of `ruleController.getRuleById` (src/controllers/ruleController.js
lines 189-247): visibility check, view-count bump (a schema path, so it persists),
then the content gate of lines 216-231.  Returns the rendered `ruleContent.query`
together with the `hasPurchased` flag of the response.  There is no owner
exemption in the masking branch: an authenticated requester without an active
Purchase gets the 150-character preview even if they authored the rule. -/
def getRuleById (s : St) (requester : Option Nat) (ruleId : Nat) :
    St × Except ApiErr (String × Bool) :=
  match findRule s ruleId with
  | none => (s, .error (.notFound "Rule not found"))
  | some rule =>
    if rule.visibility = "PRIVATE" ∧ requester ≠ some rule.author then
      (s, .error (.forbidden "Access denied"))
    else
      let rule1 := { rule with statistics := { rule.statistics with views := rule.statistics.views + 1 } }
      let s1 := saveRule s rule1
      if rule.pricing.isPaid then
        match requester with
        | some u =>
          if (findActivePurchase s1 u ruleId).isSome then (s1, .ok (rule.ruleQuery, true))
          else (s1, .ok (rule.ruleQuery.take 150 ++ purchaseMarker, false))
        | none => (s1, .ok (anonPlaceholder, false))
      else (s1, .ok (rule.ruleQuery, false))

/-- Embedding of the per-item masking of `ruleController.getRules`
(src/controllers/ruleController.js lines 147-165): the same gate as the detail
view but with a 100-character preview, applied independently per listed rule. -/
def getRulesMaskedQuery (s : St) (requester : Option Nat) (rule : RuleDoc) : String :=
  if rule.pricing.isPaid then
    match requester with
    | some u =>
      if (findActivePurchase s u rule.rid).isSome then rule.ruleQuery
      else rule.ruleQuery.take 100 ++ purchaseMarker
    | none => anonPlaceholder
  else rule.ruleQuery

/-- At most one active Purchase exists for each (buyer, rule) pair. -/
def PurchaseInv (s : St) : Prop :=
  ∀ u r : Nat,
    (s.purchases.filter (fun p => p.user == u && p.rule == r && p.isActive)).length ≤ 1


/-- One core operation applied with arbitrary arguments. -/
inductive StepOp : St → St → Prop
  | purchase (s : St) (b rid : Nat) (now : ℚ) : StepOp s ((purchaseRule s b rid now).1)
  | refundRequest (s : St) (tid u : Nat) (reason : Option String) (now : ℚ) :
      StepOp s ((requestRefund s tid u reason now).1)
  | refundProcess (s : St) (tid : Nat) (approved : Bool) :
      StepOp s ((processRefund s tid approved).1)
  | reviewCreate (s : St) (u rid : Nat) (rating : ℚ) (comment : String) :
      StepOp s ((createReview s u rid rating comment).1)
  | reviewUpdate (s : St) (u revId : Nat) (ri : Option ℚ) (ci : Option String) :
      StepOp s ((updateReview s u revId ri ci).1)
  | reviewDelete (s : St) (u : Nat) (role : String) (revId : Nat) :
      StepOp s ((deleteReview s u role revId).1)
  | reviewHelpful (s : St) (u revId : Nat) (hb : Bool) :
      StepOp s ((markHelpful s u revId hb).1)
  | ruleView (s : St) (requester : Option Nat) (rid : Nat) :
      StepOp s ((getRuleById s requester rid).1)

/-- A state reachable from `s0` by any sequence of core operations. -/
def Reachable (s0 s : St) : Prop := Relation.ReflTransGen StepOp s0 s


/-! Concrete fixture documents and states used by the witness and counterexample
theorems below. -/

/-- A rule document whose non-schema reads are populated the way `purchaseRule`
needs them to be for a purchase to proceed (`pricing.type` reads `"PAID"`,
`pricing.amount` reads 29.99, `creator` reads user 2, `stats` reads an object);
no document hydrated through the actual Rule schema produces these reads. -/
def wPaidRule : RuleDoc :=
  { rid := 1, title := "Rule", author := 2, ruleQuery := "SELECT x FROM y",
    visibility := "PUBLIC",
    pricing := { isPaid := true, price := 2999/100, currency := "USD", licenseType := "SINGLE_USE" },
    statistics := { views := 0, downloads := 0, forks := 0, purchases := 0, rating := 0, totalRatings := 0 },
    isActive := true, pricingTypeRead := some "PAID", pricingAmountRead := some (2999/100),
    creatorRead := some 2, statsRead := some { purchases := 0, revenue := 0 } }

/-- A paid rule document hydrated through the actual Rule schema: `pricing.isPaid`
is true but the four non-schema reads are all `undefined`. -/
def wPaidSchemaRule : RuleDoc :=
  { rid := 1, title := "Rule", author := 2, ruleQuery := "SELECT x FROM y",
    visibility := "PUBLIC",
    pricing := { isPaid := true, price := 2999/100, currency := "USD", licenseType := "SINGLE_USE" },
    statistics := { views := 0, downloads := 0, forks := 0, purchases := 0, rating := 0, totalRatings := 0 },
    isActive := true, pricingTypeRead := none, pricingAmountRead := none,
    creatorRead := none, statsRead := none }

/-- A free rule document hydrated through the actual Rule schema. -/
def wFreeRule : RuleDoc :=
  { rid := 1, title := "Rule", author := 2, ruleQuery := "SELECT x FROM y",
    visibility := "PUBLIC",
    pricing := { isPaid := false, price := 0, currency := "USD", licenseType := "FREE" },
    statistics := { views := 0, downloads := 0, forks := 0, purchases := 0, rating := 0, totalRatings := 0 },
    isActive := true, pricingTypeRead := none, pricingAmountRead := none,
    creatorRead := none, statsRead := none }

/-- State for the fee-split evaluation: user 1 buys `wPaidRule` (priced 29.99). -/
def stFee : St :=
  { rules := [wPaidRule], users := [], transactions := [], purchases := [],
    reviews := [], notifications := [], nextId := 5 }

/-- State in which buyer 1 already holds an active Purchase of rule 1. -/
def stOwned : St :=
  { rules := [wPaidRule], users := [], transactions := [],
    purchases := [{ pid := 10, user := 1, rule := 1, transaction := 7, licenseKey := "LIC7",
                    isActive := true, downloadsCount := 0 }],
    reviews := [], notifications := [], nextId := 20 }

/-- Seller user 2 with 100 of recorded earnings. -/
def wSeller : UserDoc :=
  { uid := 2, role := "USER",
    statistics := { totalRules := 0, totalDownloads := 0, totalEarnings := 100, rating := 0 } }

/-- A DISPUTED transaction of 100 with sellerEarnings 90, seller 2, buyer 1. -/
def wDisputedTxn : TransactionDoc :=
  { tid := 3, buyer := 1, seller := 2, rule := 1, amount := 100, currency := "USD",
    paymentMethod := "STRIPE", status := "DISPUTED", platformFee := 10, sellerEarnings := 90,
    refundReason := some "defective", refundRequestedBy := some 1, createdAt := 0 }

/-- State for the refund-resolution evaluation. -/
def stRefund : St :=
  { rules := [], users := [wSeller], transactions := [wDisputedTxn],
    purchases := [{ pid := 12, user := 1, rule := 1, transaction := 3, licenseKey := "LIC12",
                    isActive := true, downloadsCount := 0 }],
    reviews := [], notifications := [], nextId := 30 }

/-- Active review of rule 1 by user 1, rating 5. -/
def wRevA : ReviewDoc :=
  { revId := 1, rule := 1, user := 1, rating := 5, comment := "", verified := false,
    helpfulCount := 0, helpfulUsers := [], reported := false, isActive := true }

/-- Active review of rule 1 by user 2, rating 3. -/
def wRevB : ReviewDoc :=
  { revId := 2, rule := 1, user := 2, rating := 3, comment := "", verified := false,
    helpfulCount := 0, helpfulUsers := [], reported := false, isActive := true }

/-- Active review of rule 1 by user 3, rating 4. -/
def wRevC : ReviewDoc :=
  { revId := 3, rule := 1, user := 3, rating := 4, comment := "", verified := false,
    helpfulCount := 0, helpfulUsers := [], reported := false, isActive := true }

/-- Three active reviews (ratings 5, 3, 4) of the free rule 1 by users 1, 2, 3. -/
def stReviews : St :=
  { rules := [wFreeRule], users := [], transactions := [], purchases := [],
    reviews := [wRevA, wRevB, wRevC], notifications := [], nextId := 40 }

/-- State with a paid (per the schema) rule and no purchases at all. -/
def stPaidNoPurchase : St :=
  { rules := [wPaidSchemaRule], users := [], transactions := [], purchases := [],
    reviews := [], notifications := [], nextId := 50 }

/-- State with one soft-deleted review of the free rule 1 by user 1. -/
def stSoftDeleted : St :=
  { rules := [wFreeRule], users := [], transactions := [], purchases := [],
    reviews :=
      [{ revId := 1, rule := 1, user := 1, rating := 5, comment := "old", verified := false,
         helpfulCount := 0, helpfulUsers := [], reported := false, isActive := false }],
    notifications := [], nextId := 60 }

/-- A paid public rule authored by user 1 (schema-conforming reads). -/
def wOwnRule : RuleDoc :=
  { rid := 1, title := "Mine", author := 1, ruleQuery := "SELECT secret FROM events",
    visibility := "PUBLIC",
    pricing := { isPaid := true, price := 10, currency := "USD", licenseType := "SINGLE_USE" },
    statistics := { views := 0, downloads := 0, forks := 0, purchases := 0, rating := 0, totalRatings := 0 },
    isActive := true, pricingTypeRead := none, pricingAmountRead := none,
    creatorRead := none, statsRead := none }

/-- State in which author 1 views their own paid rule and holds no Purchase. -/
def stOwnerView : St :=
  { rules := [wOwnRule], users := [], transactions := [], purchases := [],
    reviews := [], notifications := [], nextId := 70 }

/-- A review with no helpful marks, on rule 1 by user 2. -/
def wPlainReview : ReviewDoc :=
  { revId := 1, rule := 1, user := 2, rating := 4, comment := "good", verified := false,
    helpfulCount := 0, helpfulUsers := [], reported := false, isActive := true }

/-- State for the helpful-toggle evaluation. -/
def stHelpful : St :=
  { rules := [wFreeRule], users := [], transactions := [], purchases := [],
    reviews := [wPlainReview], notifications := [], nextId := 80 }

/-! Generic helper lemmas about the list-backed store. -/

/-- Replacing the found document (same key) makes `find?` return the replacement. -/
theorem find?_save {α : Type} (key : α → Nat) (k : Nat) (a b : α) (hb : key b = key a) :
    ∀ l : List α, l.find? (fun x => key x == k) = some a →
      (l.map (fun x => if key x == key b then b else x)).find? (fun x => key x == k) = some b := by
  intro l
  induction l with
  | nil => intro h; simp at h
  | cons y ys ih =>
    intro h
    by_cases hy : key y = k
    · rw [List.find?_cons_of_pos _ (by simp [hy])] at h
      have hya : y = a := Option.some.inj h
      subst hya
      have hyb : (if key y == key b then b else y) = b := by simp [hb]
      rw [List.map_cons, hyb, List.find?_cons_of_pos _ (by simp [hb, hy])]
    · rw [List.find?_cons_of_neg _ (by simp [hy])] at h
      have hak : key a = k := by
        have h2 := List.find?_some h
        simpa using h2
      have hyb : (if key y == key b then b else y) = y := by
        simp [hb, hak, hy]
      rw [List.map_cons, hyb, List.find?_cons_of_neg _ (by simp [hy])]
      exact ih h

theorem findReview_saveReview (s : St) (k : Nat) (a b : ReviewDoc)
    (h : findReview s k = some a) (hb : b.revId = a.revId) :
    findReview (saveReview s b) k = some b := by
  unfold findReview at h
  unfold findReview saveReview
  exact find?_save (fun v => v.revId) k a b hb s.reviews h

theorem findTxn_saveTxn (s : St) (k : Nat) (a b : TransactionDoc)
    (h : findTxn s k = some a) (hb : b.tid = a.tid) :
    findTxn (saveTxn s b) k = some b := by
  unfold findTxn at h
  unfold findTxn saveTxn
  exact find?_save (fun t => t.tid) k a b hb s.transactions h

/-! The at-most-one-active-Purchase invariant and the operation step relation. -/

/-- Appending a fresh active purchase for a pair with no existing active purchase
preserves the invariant. -/
theorem inv_append (l : List PurchaseDoc) (b rid : Nat)
    (hInv : ∀ u r : Nat,
      (l.filter (fun p => p.user == u && p.rule == r && p.isActive)).length ≤ 1)
    (hnone : l.find? (fun p => p.user == b && p.rule == rid && p.isActive) = none)
    (p : PurchaseDoc) (hu : p.user = b) (hr : p.rule = rid) :
    ∀ u r : Nat,
      (((l ++ [p]).filter (fun q => q.user == u && q.rule == r && q.isActive)).length ≤ 1) := by
  intro u r
  rw [List.filter_append]
  by_cases hp : (p.user == u && p.rule == r && p.isActive) = true
  · have hp2 : p.user = u ∧ p.rule = r ∧ p.isActive = true := by
      simpa [Bool.and_eq_true, and_assoc] using hp
    have hub : u = b := by rw [← hp2.1, hu]
    have hrr : r = rid := by rw [← hp2.2.1, hr]
    subst hub; subst hrr
    have hnil : l.filter (fun q => q.user == u && q.rule == r && q.isActive) = [] := by
      rw [List.filter_eq_nil_iff]
      intro q hq
      have := List.find?_eq_none.mp hnone q hq
      simpa using this
    simp [hnil, hp]
  · have hnil : List.filter (fun q => q.user == u && q.rule == r && q.isActive) [p] = [] := by
      simp [List.filter_cons, hp]
    rw [hnil, List.length_append]
    simpa using hInv u r

/-- The purchase list after `purchaseRule`: either untouched, or extended by one
active purchase for (buyer, rule) — and the latter only when no active purchase
for that pair existed. -/
theorem purchaseRule_purchases (s : St) (b rid : Nat) (now : ℚ) :
    ((purchaseRule s b rid now).1).purchases = s.purchases ∨
      (findActivePurchase s b rid = none ∧ ∃ p : PurchaseDoc, p.user = b ∧ p.rule = rid ∧
        ((purchaseRule s b rid now).1).purchases = s.purchases ++ [p]) := by
  unfold purchaseRule
  cases hfr : findRule s rid with
  | none => exact Or.inl rfl
  | some rule =>
    simp only
    split
    · cases hap : findActivePurchase s b rid with
      | some q => exact Or.inl rfl
      | none =>
        cases hcr : rule.creatorRead with
        | none => exact Or.inl rfl
        | some creator =>
          simp only
          split
          · exact Or.inl rfl
          · cases ham : rule.pricingAmountRead with
            | none => exact Or.inl rfl
            | some amount =>
              cases hst : rule.statsRead with
              | none => exact Or.inr ⟨by trivial, ⟨_, rfl, rfl, rfl⟩⟩
              | some st => exact Or.inr ⟨by trivial, ⟨_, rfl, rfl, rfl⟩⟩
    · exact Or.inl rfl

theorem purchases_requestRefund (s : St) (tid u : Nat) (reason : Option String) (now : ℚ) :
    ((requestRefund s tid u reason now).1).purchases = s.purchases := by
  unfold requestRefund
  split
  · rfl
  · cases findTxn s tid with
    | none => rfl
    | some t =>
      simp only
      split
      · rfl
      · split
        · rfl
        · split
          · rfl
          · rfl

theorem purchases_processRefund (s : St) (tid : Nat) (approved : Bool) :
    ((processRefund s tid approved).1).purchases = s.purchases := by
  unfold processRefund
  cases findTxn s tid with
  | none => rfl
  | some t =>
    simp only
    split
    · rfl
    · split
      · rfl
      · rfl

theorem purchases_createReview (s : St) (u rid : Nat) (rating : ℚ) (comment : String) :
    ((createReview s u rid rating comment).1).purchases = s.purchases := by
  unfold createReview createReviewAfterGate
  cases findRule s rid with
  | none => rfl
  | some rule =>
    simp only
    split
    · cases findActivePurchase s u rid with
      | none => rfl
      | some _ =>
        cases s.reviews.find? (fun v => v.rule == rid && v.user == u) with
        | none => rfl
        | some _ => rfl
    · cases s.reviews.find? (fun v => v.rule == rid && v.user == u) with
      | none => rfl
      | some _ => rfl

theorem purchases_updateReview (s : St) (u revId : Nat) (ri : Option ℚ) (ci : Option String) :
    ((updateReview s u revId ri ci).1).purchases = s.purchases := by
  unfold updateReview
  cases findReview s revId with
  | none => rfl
  | some v =>
    simp only
    split
    · rfl
    · split
      · rfl
      · rfl

theorem purchases_deleteReview (s : St) (u : Nat) (role : String) (revId : Nat) :
    ((deleteReview s u role revId).1).purchases = s.purchases := by
  unfold deleteReview
  cases findReview s revId with
  | none => rfl
  | some v =>
    simp only
    split
    · rfl
    · split
      · rfl
      · rfl

theorem purchases_markHelpful (s : St) (u revId : Nat) (hb : Bool) :
    ((markHelpful s u revId hb).1).purchases = s.purchases := by
  unfold markHelpful
  cases findReview s revId with
  | none => rfl
  | some v =>
    simp only
    split
    · rfl
    · split
      · rfl
      · rfl

theorem purchases_getRuleById (s : St) (requester : Option Nat) (rid : Nat) :
    ((getRuleById s requester rid).1).purchases = s.purchases := by
  unfold getRuleById
  cases findRule s rid with
  | none => rfl
  | some rule =>
    simp only
    split
    · rfl
    · split
      · cases requester with
        | none => rfl
        | some u =>
          simp only
          split
          · rfl
          · rfl
      · rfl

theorem purchaseRule_inv (s : St) (b rid : Nat) (now : ℚ) (h : PurchaseInv s) :
    PurchaseInv ((purchaseRule s b rid now).1) := by
  rcases purchaseRule_purchases s b rid now with heq | ⟨hnone, p, hu, hr, heq⟩
  · intro u r; rw [heq]; exact h u r
  · intro u r
    rw [heq]
    exact inv_append s.purchases b rid h hnone p hu hr u r

theorem stepOp_inv {s s' : St} (hstep : StepOp s s') (h : PurchaseInv s) : PurchaseInv s' := by
  cases hstep with
  | purchase b rid now => exact purchaseRule_inv s b rid now h
  | refundRequest tid u reason now =>
    intro a r; rw [purchases_requestRefund]; exact h a r
  | refundProcess tid approved =>
    intro a r; rw [purchases_processRefund]; exact h a r
  | reviewCreate u rid rating comment =>
    intro a r; rw [purchases_createReview]; exact h a r
  | reviewUpdate u revId ri ci =>
    intro a r; rw [purchases_updateReview]; exact h a r
  | reviewDelete u role revId =>
    intro a r; rw [purchases_deleteReview]; exact h a r
  | reviewHelpful u revId hb =>
    intro a r; rw [purchases_markHelpful]; exact h a r
  | ruleView requester rid =>
    intro a r; rw [purchases_getRuleById]; exact h a r

/-! Claim theorems. -/

/-- C6: for every rule document conforming to the Rule schema (whose `pricing`
subdocument has `isPaid`, `price`, `currency`, `licenseType` and no field named
`type`), the guard `rule.pricing.type !== "PAID"` in `purchaseRule` is always
true, so every call fails with the "This rule is not for sale" error before any
write: the state is returned unchanged, hence no Transaction or Purchase is ever
created through this operation. -/
theorem purchaseRule_always_rejects_schema_rules (s : St) (b rid : Nat) (now : ℚ)
    (r : RuleDoc) (hfr : findRule s rid = some r) (hconf : SchemaConformingRule r) :
    purchaseRule s b rid now = (s, some (ApiErr.badRequest "This rule is not for sale")) := by
  unfold purchaseRule
  rw [hfr]
  have hne : ¬ (r.pricingTypeRead = some "PAID") := by
    rw [hconf.1]; intro h; cases h
  simp only [if_neg hne]

/-- Witness for C6 at a concrete paid (per the schema) rule. -/
theorem purchaseRule_always_rejects_schema_rules_witness :
    purchaseRule stPaidNoPurchase 1 1 0 =
      (stPaidNoPurchase, some (ApiErr.badRequest "This rule is not for sale")) :=
  purchaseRule_always_rejects_schema_rules stPaidNoPurchase 1 1 0 wPaidSchemaRule
    rfl ⟨rfl, rfl, rfl, rfl⟩

/-- C2: every state reachable by core operations from a state satisfying the
at-most-one-active-Purchase-per-(buyer, rule) invariant satisfies it as well; and
a `purchaseRule` call by a buyer who already holds an active Purchase of a
purchasable rule (one whose `pricing.type` read yields "PAID", the only situation
in which a Purchase can have been minted by this operation in the first place)
fails with the 409 Conflict "You have already purchased this rule" (AlreadyOwned)
and returns the state unchanged, so no second active Purchase is created. -/
theorem purchase_invariant_and_already_owned (s0 s : St) (hInv : PurchaseInv s0)
    (hreach : Reachable s0 s) :
    PurchaseInv s ∧
      (∀ (b rid : Nat) (r : RuleDoc) (now : ℚ), findRule s rid = some r →
        r.pricingTypeRead = some "PAID" → (findActivePurchase s b rid).isSome = true →
        purchaseRule s b rid now =
          (s, some (ApiErr.conflict "You have already purchased this rule"))) := by
  constructor
  · unfold Reachable at hreach
    induction hreach with
    | refl => exact hInv
    | tail _ hstep ih => exact stepOp_inv hstep ih
  · intro b rid r now hfr hp hsome
    unfold purchaseRule
    rw [hfr]
    obtain ⟨q, hq⟩ := Option.isSome_iff_exists.mp hsome
    simp only [if_pos hp, hq]

/-- Witness for C2: a state holding one active Purchase of the paid rule by
buyer 1; a second purchase attempt by buyer 1 fails with the conflict error. -/
theorem purchase_invariant_and_already_owned_witness :
    PurchaseInv stOwned ∧
      purchaseRule stOwned 1 1 0 =
        (stOwned, some (ApiErr.conflict "You have already purchased this rule")) := by
  have hInv : PurchaseInv stOwned := by
    intro u r
    exact le_trans (List.length_filter_le _ _) (by decide)
  refine ⟨hInv, ?_⟩
  exact (purchase_invariant_and_already_owned stOwned stOwned hInv
    Relation.ReflTransGen.refl).2 1 1 wPaidRule 0 rfl rfl rfl

/-- C1 (code bug): for the purchase of a rule priced 29.99 the code stores
`platformFee = 29.99 * 0.1 = 2.999` and `sellerEarnings = 29.99 - 2.999 = 26.991`;
the fee does sum with the earnings to the amount, but it is **not**
`round(amount * 0.10) = 3` as the claim (and the repository's own OVERVIEW.md
example: amount 29.99 → platformFee 3.00, sellerEarnings 26.99) requires. -/
theorem purchaseRule_fee_not_rounded :
    (purchaseRule stFee 1 1 0).2 = none ∧
    ((purchaseRule stFee 1 1 0).1.transactions.map
        (fun t => (t.amount, t.platformFee, t.sellerEarnings))) =
      [(2999/100, 2999/100 * (1/10), 2999/100 - 2999/100 * (1/10))] ∧
    (2999/100 : ℚ) * (1/10) = 2999/1000 ∧
    (2999/100 : ℚ) - 2999/100 * (1/10) = 26991/1000 ∧
    (2999/1000 : ℚ) + 26991/1000 = 2999/100 ∧
    (2999/1000 : ℚ) ≠ ((round ((2999/100 : ℚ) * (1/10)) : ℤ) : ℚ) ∧
    ((round ((2999/100 : ℚ) * (1/10)) : ℤ) : ℚ) = 3 := by
  refine ⟨rfl, rfl, by norm_num, by norm_num, by norm_num, ?_, ?_⟩
  · norm_num [round_eq]
  · norm_num [round_eq]

/-- C3 (code bug): approving the refund of the DISPUTED transaction (sellerEarnings
90) moves it to REFUNDED but leaves the seller's stored
`statistics.totalEarnings` at 100: the `$inc` targets the non-schema path
`"statistics.earnings"`, which strict-mode casting drops. -/
theorem processRefund_earnings_not_deducted :
    (processRefund stRefund 3 true).2 = none ∧
    findTxn (processRefund stRefund 3 true).1 3 = some { wDisputedTxn with status := "REFUNDED" } ∧
    findUser (processRefund stRefund 3 true).1 2 = some wSeller ∧
    wSeller.statistics.totalEarnings = 100 ∧
    wDisputedTxn.sellerEarnings = 90 :=
  ⟨rfl, rfl, rfl, rfl, rfl⟩

/-- C4 (code bug): soft-deleting the rating-3 review from active ratings
[5, 3, 4] succeeds and leaves the active-review mean at 9/2 = 4.5, but the stored
`statistics.rating` / `statistics.totalRatings` of the rule are untouched (the
recomputation writes the non-schema paths `"stats.rating"` /
`"stats.reviewCount"`, which strict-mode casting drops); and a fresh review
submission does not even reach the recomputation: it raises
`ReferenceError: hasPurchased is not defined` and persists nothing. -/
theorem rating_aggregate_never_updated :
    (deleteReview stReviews 2 "USER" 2).2 = none ∧
    findReview (deleteReview stReviews 2 "USER" 2).1 2 = some { wRevB with isActive := false } ∧
    activeReviewsFor (deleteReview stReviews 2 "USER" 2).1 1 = [wRevA, wRevC] ∧
    reviewsAvg [wRevA, wRevC] = 9/2 ∧
    findRule (deleteReview stReviews 2 "USER" 2).1 1 = some wFreeRule ∧
    wFreeRule.statistics.rating = 0 ∧
    wFreeRule.statistics.totalRatings = 0 ∧
    (0 : ℚ) ≠ 9/2 ∧
    createReview stReviews 4 1 5 "nice" =
      (stReviews, some (ApiErr.jsReferenceError "hasPurchased")) := by
  refine ⟨rfl, rfl, rfl, ?_, rfl, rfl, rfl, by norm_num, rfl⟩
  show ((5 : ℚ) + (4 + 0)) / 2 = 9/2
  norm_num

/-- C7 (code bug): every review submission that passes the duplicate check —
here on the free rule (the claim expects a stored review with `verified = false`)
and on the schema-paid rule by a user with no purchase (the claim expects a
Forbidden failure of the purchase gate) — raises
`ReferenceError: hasPurchased is not defined` and persists nothing, because
`hasPurchased` is block-scoped inside the paid branch and the paid branch itself
tests the never-"PAID" read `rule.pricing.type`. -/
theorem createReview_reference_error :
    createReview stReviews 5 1 4 "ok" =
      (stReviews, some (ApiErr.jsReferenceError "hasPurchased")) ∧
    createReview stPaidNoPurchase 5 1 4 "ok" =
      (stPaidNoPurchase, some (ApiErr.jsReferenceError "hasPurchased")) ∧
    wPaidSchemaRule.pricing.isPaid = true ∧
    wPaidSchemaRule.pricingTypeRead = none ∧
    stPaidNoPurchase.purchases = [] :=
  ⟨rfl, rfl, rfl, rfl, rfl⟩

set_option maxRecDepth 8000 in
/-- C5 counterexample: user 1 is the author of the paid rule and holds no
Purchase; `getRuleById` returns the truncated-preview masking, not the full
content the claim promises to owners. -/
theorem owner_masked_counterexample :
    (getRuleById stOwnerView (some 1) 1).2 =
      Except.ok (wOwnRule.ruleQuery.take 150 ++ purchaseMarker, false) ∧
    wOwnRule.ruleQuery.take 150 ++ purchaseMarker ≠ wOwnRule.ruleQuery ∧
    wOwnRule.author = 1 ∧
    wOwnRule.pricing.isPaid = true ∧
    stOwnerView.purchases = [] := by
  refine ⟨rfl, ?_, rfl, rfl, rfl⟩
  decide

/-- The view-count bump of `getRuleById` does not touch the purchase store. -/
theorem findActivePurchase_saveRule (s : St) (r2 : RuleDoc) (u rid : Nat) :
    findActivePurchase (saveRule s r2) u rid = findActivePurchase s u rid := rfl

/-- The preview prefix is at most `n` characters long. -/
theorem take_length_le (s : String) (n : Nat) : (s.take n).length ≤ n := by
  show (s.take n).data.length ≤ n
  rw [String.data_take, List.length_take]
  exact Nat.min_le_left _ _

/-- C5 (amended): rendering a paid rule returns the full query content exactly to
requesters holding an active Purchase — the owner is **not** exempted; any other
authenticated requester (the author included) receives the query truncated to at
most 150 characters (100 in the list view) followed by the fixed
purchase-required marker; an anonymous requester receives the fixed placeholder
string, independent of the rule's content; non-paid rules render in full. -/
theorem content_gate_amended (s : St) (rid : Nat) (r : RuleDoc) (requester : Option Nat)
    (hfr : findRule s rid = some r)
    (hvis : ¬ (r.visibility = "PRIVATE" ∧ requester ≠ some r.author)) :
    (∀ u, requester = some u → r.pricing.isPaid = true →
      ((findActivePurchase s u rid).isSome = true →
        (getRuleById s requester rid).2 = Except.ok (r.ruleQuery, true)) ∧
      (findActivePurchase s u rid = none →
        (getRuleById s requester rid).2 =
            Except.ok (r.ruleQuery.take 150 ++ purchaseMarker, false) ∧
          (r.ruleQuery.take 150).length ≤ 150)) ∧
    (requester = none → r.pricing.isPaid = true →
      (getRuleById s requester rid).2 = Except.ok (anonPlaceholder, false)) ∧
    (r.pricing.isPaid = false →
      (getRuleById s requester rid).2 = Except.ok (r.ruleQuery, false)) ∧
    (∀ u, requester = some u →
      ((findActivePurchase s u r.rid).isSome = true →
        getRulesMaskedQuery s requester r = r.ruleQuery) ∧
      (r.pricing.isPaid = true → findActivePurchase s u r.rid = none →
        getRulesMaskedQuery s requester r = r.ruleQuery.take 100 ++ purchaseMarker)) ∧
    (requester = none → r.pricing.isPaid = true →
      getRulesMaskedQuery s requester r = anonPlaceholder) ∧
    (r.pricing.isPaid = false → getRulesMaskedQuery s requester r = r.ruleQuery) := by
  refine ⟨?_, ?_, ?_, ?_, ?_, ?_⟩
  · intro u hreq hpaid
    subst hreq
    constructor
    · intro hap
      unfold getRuleById
      rw [hfr]
      dsimp only
      rw [if_neg hvis]
      rw [hpaid, if_pos rfl, findActivePurchase_saveRule, hap, if_pos rfl]
    · intro hap
      refine ⟨?_, take_length_le _ _⟩
      unfold getRuleById
      rw [hfr]
      dsimp only
      rw [if_neg hvis]
      rw [hpaid, if_pos rfl, findActivePurchase_saveRule, hap]
      rfl
  · intro hreq hpaid
    subst hreq
    unfold getRuleById
    rw [hfr]
    dsimp only
    rw [if_neg hvis]
    rw [hpaid, if_pos rfl]
  · intro hpaid
    unfold getRuleById
    rw [hfr]
    dsimp only
    rw [if_neg hvis]
    rw [hpaid, if_neg (by simp)]
  · intro u hreq
    subst hreq
    constructor
    · intro hap
      unfold getRulesMaskedQuery
      by_cases hp : r.pricing.isPaid = true
      · rw [if_pos hp]
        dsimp only
        rw [hap, if_pos rfl]
      · rw [if_neg hp]
    · intro hpaid hap
      unfold getRulesMaskedQuery
      rw [if_pos hpaid]
      dsimp only
      rw [hap]
      rfl
  · intro hreq hpaid
    subst hreq
    unfold getRulesMaskedQuery
    rw [if_pos hpaid]
  · intro hpaid
    unfold getRulesMaskedQuery
    rw [if_neg (by simp [hpaid])]

/-- Witness for C5 (amended) at the concrete owner-without-purchase input. -/
theorem content_gate_amended_witness :
    (getRuleById stOwnerView (some 1) 1).2 =
        Except.ok (wOwnRule.ruleQuery.take 150 ++ purchaseMarker, false) ∧
      (wOwnRule.ruleQuery.take 150).length ≤ 150 :=
  ((content_gate_amended stOwnerView 1 wOwnRule (some 1) rfl (by decide)).1 1 rfl rfl).2 rfl

/-- C8 counterexample: user 1's only review of the free rule 1 is soft-deleted
(`isActive = false`), yet a new submission by user 1 fails with the
DuplicateReview conflict — the duplicate lookup has no `isActive` filter. -/
theorem resubmit_after_soft_delete_fails :
    createReview stSoftDeleted 1 1 5 "again" =
      (stSoftDeleted, some (ApiErr.conflict "You have already reviewed this rule")) ∧
    (stSoftDeleted.reviews.map (fun v => (v.user, v.rule, v.isActive))) = [(1, 1, false)] :=
  ⟨rfl, rfl⟩

/-- The duplicate branch of the post-gate tail fires exactly when any prior
review (active or not) by the user for the rule exists. -/
theorem createReviewAfterGate_conflict_iff (s : St) (u rid : Nat) :
    ((createReviewAfterGate s u rid).2 =
        some (ApiErr.conflict "You have already reviewed this rule")) ↔
      (∃ v ∈ s.reviews, v.rule = rid ∧ v.user = u) := by
  unfold createReviewAfterGate
  cases hf : s.reviews.find? (fun v => v.rule == rid && v.user == u) with
  | some v =>
    simp only
    constructor
    · intro _
      refine ⟨v, List.mem_of_find?_eq_some hf, ?_⟩
      have hp := List.find?_some hf
      simpa [Bool.and_eq_true] using hp
    · intro _
      trivial
  | none =>
    simp only
    constructor
    · intro hcontra
      cases hcontra
    · rintro ⟨v, hv, hvr, hvu⟩
      have hnp := List.find?_eq_none.mp hf v hv
      simp [hvr, hvu] at hnp

/-- C8 (amended): provided the rule exists and the paid purchase gate does not
fire first, review submission fails with the DuplicateReview conflict exactly
when a prior review by the same user for the same rule exists **regardless of its
`isActive` flag** (the lookup `Review.findOne({rule, user})` has no `isActive`
filter, matching the non-partial unique index on (rule, user)): a second submit
after an edit fails, and a submit after a soft-delete also fails. -/
theorem duplicate_review_iff_any_prior (s : St) (u rid : Nat) (rating : ℚ)
    (comment : String) (r : RuleDoc) (hfr : findRule s rid = some r)
    (hgate : ¬ (r.pricingTypeRead = some "PAID" ∧ findActivePurchase s u rid = none)) :
    ((createReview s u rid rating comment).2 =
        some (ApiErr.conflict "You have already reviewed this rule")) ↔
      (∃ v ∈ s.reviews, v.rule = rid ∧ v.user = u) := by
  unfold createReview
  rw [hfr]
  dsimp only
  by_cases hp : r.pricingTypeRead = some "PAID"
  · rw [if_pos hp]
    have hap : ¬ findActivePurchase s u rid = none := fun h => hgate ⟨hp, h⟩
    obtain ⟨q, hq⟩ := Option.ne_none_iff_exists'.mp hap
    rw [hq]
    exact createReviewAfterGate_conflict_iff s u rid
  · rw [if_neg hp]
    exact createReviewAfterGate_conflict_iff s u rid

/-- Witness for C8 (amended) at the soft-deleted-review input: the soft-deleted
review makes resubmission fail with DuplicateReview. -/
theorem duplicate_review_iff_any_prior_witness :
    (createReview stSoftDeleted 1 1 5 "again").2 =
      some (ApiErr.conflict "You have already reviewed this rule") := by
  refine (duplicate_review_iff_any_prior stSoftDeleted 1 1 5 "again" wFreeRule rfl ?_).mpr ?_
  · rintro ⟨h1, _⟩
    cases h1
  · exact ⟨{ revId := 1, rule := 1, user := 1, rating := 5, comment := "old", verified := false,
             helpfulCount := 0, helpfulUsers := [], reported := false, isActive := false },
           by simp [stSoftDeleted], rfl, rfl⟩

/-- `markHelpful(_, user, true)` when the user is not yet in the helpful set:
adds the user and increments the count. -/
theorem markHelpful_add (s : St) (u k : Nat) (v : ReviewDoc)
    (hv : findReview s k = some v) (hu : u ∉ v.helpfulUsers) :
    markHelpful s u k true =
      (saveReview s { v with helpfulUsers := v.helpfulUsers ++ [u],
                             helpfulCount := v.helpfulCount + 1 }, none) := by
  unfold markHelpful
  rw [hv]
  dsimp only
  rw [if_pos ⟨rfl, hu⟩]

/-- `markHelpful(_, user, true)` when the user is already in the helpful set:
the review is saved unchanged. -/
theorem markHelpful_true_noop (s : St) (u k : Nat) (v : ReviewDoc)
    (hv : findReview s k = some v) (hu : u ∈ v.helpfulUsers) :
    markHelpful s u k true = (saveReview s v, none) := by
  unfold markHelpful
  rw [hv]
  dsimp only
  rw [if_neg (fun h => h.2 hu), if_neg (fun h => h.1 rfl)]

/-- `markHelpful(_, user, false)` when the user is in the helpful set: removes
the first occurrence and decrements the count. -/
theorem markHelpful_remove (s : St) (u k : Nat) (v : ReviewDoc)
    (hv : findReview s k = some v) (hu : u ∈ v.helpfulUsers) :
    markHelpful s u k false =
      (saveReview s { v with helpfulUsers := v.helpfulUsers.erase u,
                             helpfulCount := v.helpfulCount - 1 }, none) := by
  unfold markHelpful
  rw [hv]
  dsimp only
  rw [if_neg (by simp), if_pos ⟨by simp, hu⟩]

/-- Unmarking after a fresh mark restores the original review document. -/
theorem markHelpful_remove_after_add (s2 : St) (u k : Nat) (v : ReviewDoc)
    (hu : u ∉ v.helpfulUsers)
    (f2 : findReview s2 k = some { v with helpfulUsers := v.helpfulUsers ++ [u],
                                          helpfulCount := v.helpfulCount + 1 }) :
    markHelpful s2 u k false = (saveReview s2 v, none) := by
  have hmem : u ∈ ({ v with helpfulUsers := v.helpfulUsers ++ [u],
                            helpfulCount := v.helpfulCount + 1 } : ReviewDoc).helpfulUsers := by
    show u ∈ v.helpfulUsers ++ [u]
    simp
  rw [markHelpful_remove s2 u k _ f2 hmem]
  have hrec : ({ v with helpfulUsers := (v.helpfulUsers ++ [u]).erase u,
                        helpfulCount := v.helpfulCount + 1 - 1 } : ReviewDoc) = v := by
    have h1 : (v.helpfulUsers ++ [u]).erase u = v.helpfulUsers := by
      rw [List.erase_append_right _ hu, List.erase_cons_head]
      simp
    have h2 : v.helpfulCount + 1 - 1 = v.helpfulCount := by ring
    rw [h1, h2]
  congr 1
  · show saveReview s2 { v with helpfulUsers := (v.helpfulUsers ++ [u]).erase u,
                                helpfulCount := v.helpfulCount + 1 - 1 } = saveReview s2 v
    rw [hrec]

/-- C9: for a user not yet in a review's helpful set, marking helpful twice in a
row stores the user once and increments `helpful.count` exactly once (the second
identical call leaves the stored review unchanged), and a subsequent
`markHelpful(_, user, false)` removes the user and restores the review — count
included — to its original value: no repeated identical call double-counts. -/
theorem markHelpful_idempotent_toggle (s : St) (u k : Nat) (v : ReviewDoc)
    (hv : findReview s k = some v) (hu : u ∉ v.helpfulUsers) :
    findReview ((markHelpful s u k true).1) k =
      some { v with helpfulUsers := v.helpfulUsers ++ [u],
                    helpfulCount := v.helpfulCount + 1 } ∧
    findReview ((markHelpful ((markHelpful s u k true).1) u k true).1) k =
      some { v with helpfulUsers := v.helpfulUsers ++ [u],
                    helpfulCount := v.helpfulCount + 1 } ∧
    findReview ((markHelpful ((markHelpful ((markHelpful s u k true).1) u k true).1)
        u k false).1) k = some v := by
  have f1 : findReview ((markHelpful s u k true).1) k =
      some { v with helpfulUsers := v.helpfulUsers ++ [u],
                    helpfulCount := v.helpfulCount + 1 } := by
    rw [markHelpful_add s u k v hv hu]
    exact findReview_saveReview s k v _ hv rfl
  have hmem : u ∈ ({ v with helpfulUsers := v.helpfulUsers ++ [u],
                            helpfulCount := v.helpfulCount + 1 } : ReviewDoc).helpfulUsers := by
    show u ∈ v.helpfulUsers ++ [u]
    simp
  have f2 : findReview ((markHelpful ((markHelpful s u k true).1) u k true).1) k =
      some { v with helpfulUsers := v.helpfulUsers ++ [u],
                    helpfulCount := v.helpfulCount + 1 } := by
    rw [markHelpful_true_noop ((markHelpful s u k true).1) u k _ f1 hmem]
    exact findReview_saveReview _ k _ _ f1 rfl
  refine ⟨f1, f2, ?_⟩
  rw [markHelpful_remove_after_add _ u k v hu f2]
  exact findReview_saveReview _ k _ v f2 rfl

/-- Witness for C9 at a concrete review with an empty helpful set. -/
theorem markHelpful_idempotent_toggle_witness :
    findReview ((markHelpful stHelpful 7 1 true).1) 1 =
      some { wPlainReview with helpfulUsers := wPlainReview.helpfulUsers ++ [7],
                               helpfulCount := wPlainReview.helpfulCount + 1 } ∧
    findReview ((markHelpful ((markHelpful stHelpful 7 1 true).1) 7 1 true).1) 1 =
      some { wPlainReview with helpfulUsers := wPlainReview.helpfulUsers ++ [7],
                               helpfulCount := wPlainReview.helpfulCount + 1 } ∧
    findReview ((markHelpful ((markHelpful ((markHelpful stHelpful 7 1 true).1) 7 1 true).1)
        7 1 false).1) 1 = some wPlainReview :=
  markHelpful_idempotent_toggle stHelpful 7 1 wPlainReview rfl (by decide)

/-- The `$inc` on the non-schema path `"statistics.earnings"` leaves every user
document unchanged (strict-mode casting drops the path; the schema path would be
`"statistics.totalEarnings"`). -/
theorem applyUserIncPath_earnings (u : UserDoc) (d : ℚ) :
    applyUserIncPath u "statistics.earnings" d = u := by
  unfold applyUserIncPath
  rw [if_neg (by decide), if_neg (by decide), if_neg (by decide), if_neg (by decide)]

theorem users_updateUserByIdInc_earnings (s : St) (uid : Nat) (d : ℚ) :
    (updateUserByIdInc s uid "statistics.earnings" d).users = s.users := by
  unfold updateUserByIdInc
  show s.users.map (fun u => if u.uid == uid then applyUserIncPath u "statistics.earnings" d
                             else u) = s.users
  simp [applyUserIncPath_earnings]

/-- C10: approving a refund of a DISPUTED transaction succeeds, moves only the
transaction's status to REFUNDED and appends notifications; the Purchase store is
left entirely unchanged (every Purchase keeps its `isActive` flag and
`licenseKey`), so the buyer retains the active entitlement — and, the earnings
`$inc` being dropped by strict mode, the user store is unchanged too. -/
theorem processRefund_leaves_purchases_unchanged (s : St) (tid : Nat)
    (t : TransactionDoc) (ht : findTxn s tid = some t) (hstat : t.status = "DISPUTED") :
    (processRefund s tid true).2 = none ∧
    ((processRefund s tid true).1).purchases = s.purchases ∧
    ((processRefund s tid true).1).reviews = s.reviews ∧
    ((processRefund s tid true).1).rules = s.rules ∧
    ((processRefund s tid true).1).users = s.users ∧
    findTxn ((processRefund s tid true).1) tid = some { t with status := "REFUNDED" } := by
  have hbody : processRefund s tid true =
      (saveTxn (notify (notify (updateUserByIdInc s t.seller "statistics.earnings"
          (-t.sellerEarnings)) t.buyer "SYSTEM" "Refund approved") t.seller "SYSTEM"
          "Refund issued") { t with status := "REFUNDED" }, none) := by
    unfold processRefund
    rw [ht]
    dsimp only
    rw [if_neg (by simp [hstat]), if_pos rfl]
  refine ⟨by rw [hbody], ?_, ?_, ?_, ?_, ?_⟩
  · rw [hbody]
    rfl
  · rw [hbody]
    rfl
  · rw [hbody]
    rfl
  · rw [hbody]
    show (updateUserByIdInc s t.seller "statistics.earnings" (-t.sellerEarnings)).users = s.users
    exact users_updateUserByIdInc_earnings s t.seller (-t.sellerEarnings)
  · rw [hbody]
    show findTxn (saveTxn _ { t with status := "REFUNDED" }) tid = some { t with status := "REFUNDED" }
    exact findTxn_saveTxn _ tid t _ ht rfl

/-- Witness for C10 at the concrete DISPUTED transaction. -/
theorem processRefund_leaves_purchases_unchanged_witness :
    (processRefund stRefund 3 true).2 = none ∧
    ((processRefund stRefund 3 true).1).purchases = stRefund.purchases ∧
    ((processRefund stRefund 3 true).1).reviews = stRefund.reviews ∧
    ((processRefund stRefund 3 true).1).rules = stRefund.rules ∧
    ((processRefund stRefund 3 true).1).users = stRefund.users ∧
    findTxn ((processRefund stRefund 3 true).1) 3 =
      some { wDisputedTxn with status := "REFUNDED" } :=
  processRefund_leaves_purchases_unchanged stRefund 3 wDisputedTxn rfl rfl
